import Mathlib

/-!
Shallow embedding of the VM lifecycle core of gitlab-runner-kubevirt
(src/k8s.go): the provisioner CreateJobVM, the identity selector Selector,
and the locator FindJobVM, together with the parts of the Kubernetes and
KubeVirt data model they construct and inspect.

Machine quantities (k8s resource.Quantity) and collaborator errors are
external library types; the development is parameterized by an abstract
quantity type Q, an abstract collaborator error type E, and an abstract
quantity parser modelling resource.ParseQuantity.
-/

namespace KubevirtRunner

/-- Modelled from the spec: the JobContext structure is declared outside
src/k8s.go (only k8s.go is available); its fields are the ones listed in
the data model of the spec, all strings, and exactly the ones k8s.go reads. -/
structure JobContext where
  ID : String
  BaseName : String
  Namespace : String
  CPURequest : String
  CPULimit : String
  MemoryRequest : String
  MemoryLimit : String
  Image : String
  ImagePullPolicy : String
  MachineType : String
  deriving Repr, DecidableEq

/-- Go errors as produced by this module: base is an error value coming
from a collaborator (the quantity parser or the cluster client), errorf m
models fmt.Errorf(m) with no %w verb, and wrapf m e models
fmt.Errorf(m ++ ": %w", e), a message that wraps the underlying error. -/
inductive GoError (E : Type) where
  | base : E → GoError E
  | errorf : String → GoError E
  | wrapf : String → GoError E → GoError E
  deriving Repr, DecidableEq

/-- Embeds the Go constant labelPrefix = "gitlab-runner-kubevirt.snai.pe". -/
def labelDomain : String := "gitlab-runner-kubevirt.snai.pe"

/-- Value of k8sapi.ResourceCPU in the k8s API library. -/
def ResourceCPU : String := "cpu"

/-- Value of k8sapi.ResourceMemory in the k8s API library. -/
def ResourceMemory : String := "memory"

/-- Value of kubevirtapi.GroupVersion.String() in the KubeVirt API library. -/
def groupVersionString : String := "kubevirt.io/v1"

/-- Value of kubevirtapi.VirtualMachineInstanceGroupVersionKind.Kind. -/
def vmiKind : String := "VirtualMachineInstance"

/-- metav1.TypeMeta, the fields k8s.go sets. -/
structure TypeMeta where
  APIVersion : String
  Kind : String
  deriving Repr, DecidableEq

/-- metav1.ObjectMeta, the fields k8s.go sets or that the cluster assigns.
Labels is the map field rendered as an association list. -/
structure ObjectMeta where
  Name : String := ""
  GenerateName : String := ""
  Labels : List (String × String) := []
  deriving Repr, DecidableEq

/-- kubevirtapi.ResourceRequirements over an abstract quantity type; the
k8s ResourceList maps are rendered as association lists in construction
order. -/
structure ResourceRequirements (Q : Type) where
  Requests : List (String × Q)
  Limits : List (String × Q)
  deriving Repr, DecidableEq

/-- kubevirtapi.Machine. The Go field is named Type, which is a Lean
keyword, hence machineType here. -/
structure Machine where
  machineType : String
  deriving Repr, DecidableEq

/-- kubevirtapi.Disk, the field k8s.go sets. -/
structure Disk where
  Name : String
  deriving Repr, DecidableEq

/-- kubevirtapi.Devices, the field k8s.go sets. -/
structure Devices where
  Disks : List Disk
  deriving Repr, DecidableEq

/-- kubevirtapi.ContainerDiskSource; k8sapi.PullPolicy is a string type. -/
structure ContainerDiskSource where
  Image : String
  ImagePullPolicy : String
  deriving Repr, DecidableEq

/-- kubevirtapi.VolumeSource, the single member k8s.go sets; the Go field
is a nilable pointer, rendered as Option. -/
structure VolumeSource where
  ContainerDisk : Option ContainerDiskSource := none
  deriving Repr, DecidableEq

/-- kubevirtapi.Volume. -/
structure Volume where
  Name : String
  volumeSource : VolumeSource
  deriving Repr, DecidableEq

/-- kubevirtapi.DomainSpec over an abstract quantity type; the Machine
field is a nilable pointer, rendered as Option. -/
structure DomainSpec (Q : Type) where
  Resources : ResourceRequirements Q
  machine : Option Machine
  Devices : Devices
  deriving Repr, DecidableEq

/-- kubevirtapi.VirtualMachineInstanceSpec, the fields k8s.go sets. -/
structure VirtualMachineInstanceSpec (Q : Type) where
  Domain : DomainSpec Q
  Volumes : List Volume
  deriving Repr, DecidableEq

/-- kubevirtapi.VirtualMachineInstance, the fields k8s.go sets. -/
structure VirtualMachineInstance (Q : Type) where
  typeMeta : TypeMeta
  metadata : ObjectMeta
  Spec : VirtualMachineInstanceSpec Q
  deriving Repr, DecidableEq

/-- metav1.ListOptions, the field Selector sets. -/
structure ListOptions where
  LabelSelector : String
  deriving Repr, DecidableEq

/-- kubevirtapi.VirtualMachineInstanceList, the field FindJobVM reads. -/
structure VirtualMachineInstanceList (Q : Type) where
  Items : List (VirtualMachineInstance Q)
  deriving Repr, DecidableEq

/-- The cluster client collaborator (kubevirt.KubevirtClient restricted to
the two operations k8s.go uses): create and list on the instance API of a
namespace. Both return an instance or an error, as in Go. -/
structure Client (Q E : Type) where
  create : String → VirtualMachineInstance Q → Except (GoError E) (VirtualMachineInstance Q)
  list : String → ListOptions → Except (GoError E) (VirtualMachineInstanceList Q)

/-- The resources local of CreateJobVM (src/k8s.go lines 77-86):
requests = {cpu: cpuReq, memory: memReq}, limits = {cpu: cpuLim, memory: memLim}. -/
def resources {Q : Type} (cpuReq cpuLim memReq memLim : Q) : ResourceRequirements Q :=
  { Requests := [(ResourceCPU, cpuReq), (ResourceMemory, memReq)]
    Limits := [(ResourceCPU, cpuLim), (ResourceMemory, memLim)] }

/-- The instanceTemplate local of CreateJobVM (src/k8s.go lines 88-125),
as a function of the context and the four parsed quantities. -/
def instanceTemplate {Q : Type} (jctx : JobContext) (cpuReq cpuLim memReq memLim : Q) :
    VirtualMachineInstance Q :=
  { typeMeta := { APIVersion := groupVersionString, Kind := vmiKind }
    metadata :=
      { GenerateName := jctx.BaseName
        Labels := [(labelDomain ++ "/id", jctx.ID)] }
    Spec :=
      { Domain :=
          { Resources := resources cpuReq cpuLim memReq memLim
            machine := some { machineType := jctx.MachineType }
            Devices := { Disks := [{ Name := "root" }] } }
        Volumes :=
          [{ Name := "root"
             volumeSource :=
               { ContainerDisk := some
                   { Image := jctx.Image
                     ImagePullPolicy := jctx.ImagePullPolicy } } }] } }

/-- The message of the MissingImage error (src/k8s.go line 74). -/
def missingImageMsg : String := "must specify a containerdisk image"

/-- CreateJobVM (src/k8s.go lines 55-128), parameterized by the quantity
parser (resource.ParseQuantity) and the cluster client. Each parse failure
is fmt.Errorf("parsing <field>: %w", err); the empty-image failure is
fmt.Errorf("must specify a containerdisk image"); otherwise the result of
the client create call is returned as is. -/
def CreateJobVM {Q E : Type} (parseQuantity : String → Except E Q) (client : Client Q E)
    (jctx : JobContext) : Except (GoError E) (VirtualMachineInstance Q) :=
  match parseQuantity jctx.CPURequest with
  | .error err => .error (.wrapf "parsing cpu.request" (.base err))
  | .ok cpuReq =>
  match parseQuantity jctx.CPULimit with
  | .error err => .error (.wrapf "parsing cpu.limit" (.base err))
  | .ok cpuLim =>
  match parseQuantity jctx.MemoryRequest with
  | .error err => .error (.wrapf "parsing memory.request" (.base err))
  | .ok memReq =>
  match parseQuantity jctx.MemoryLimit with
  | .error err => .error (.wrapf "parsing memory.limit" (.base err))
  | .ok memLim =>
  if jctx.Image = "" then
    .error (.errorf missingImageMsg)
  else
    client.create jctx.Namespace (instanceTemplate jctx cpuReq cpuLim memReq memLim)

/-- Selector (src/k8s.go lines 130-134):
fmt.Sprintf(labelPrefix ++ "/id=%s", jctx.ID). -/
def Selector (jctx : JobContext) : ListOptions :=
  { LabelSelector := labelDomain ++ "/id=" ++ jctx.ID }

/-- The message of the InstanceVanished error (src/k8s.go line 143). -/
def vanishedMsg : String :=
  "Virtual Machine instance disappeared while the job was running!"

/-- The message of the AmbiguousInstance error (src/k8s.go line 146):
fmt.Errorf("Virtual Machine instance has ambiguous ID! %d instances found with ID %v", n, id). -/
def ambiguousMsg (n : Nat) (id : String) : String :=
  "Virtual Machine instance has ambiguous ID! " ++ toString n ++
    " instances found with ID " ++ id

/-- FindJobVM (src/k8s.go lines 136-149). -/
def FindJobVM {Q E : Type} (client : Client Q E) (jctx : JobContext) :
    Except (GoError E) (VirtualMachineInstance Q) :=
  match client.list jctx.Namespace (Selector jctx) with
  | .error err => .error err
  | .ok list =>
    if hz : list.Items.length = 0 then
      .error (.errorf vanishedMsg)
    else if 1 < list.Items.length then
      .error (.errorf (ambiguousMsg list.Items.length jctx.ID))
    else
      .ok (list.Items.get ⟨0, Nat.pos_of_ne_zero hz⟩)

/-- Modelled from the spec: a k8s equality label selector string "k=v"
matches an object when one of its label pairs renders as that string;
label-selector matching is k8s library behavior outside src/. -/
def labelMatches (sel : String) (labels : List (String × String)) : Bool :=
  labels.any (fun kv => kv.1 ++ "=" ++ kv.2 == sel)

/-- A concrete parser standing in for resource.ParseQuantity in witnesses:
rejects the string "not-a-quantity", parses anything else. -/
def demoParse : String → Except String Nat := fun s =>
  if s = "not-a-quantity" then Except.error "unparseable quantity"
  else Except.ok s.length

/-- A concrete Job Context for witnesses (end-to-end scenario A of the spec). -/
def demoCtx : JobContext :=
  { ID := "job-1", BaseName := "runner-", Namespace := "ci"
    CPURequest := "250m", CPULimit := "500m"
    MemoryRequest := "256Mi", MemoryLimit := "512Mi"
    Image := "registry/test:latest", ImagePullPolicy := "IfNotPresent"
    MachineType := "q35" }

/-- The same context under a second ID. -/
def demoCtxB : JobContext := { demoCtx with ID := "job-2" }

/-- A context with a malformed CPURequest and an empty Image
(end-to-end scenario B of the spec, plus a missing image). -/
def demoBadCtx : JobContext :=
  { demoCtx with CPURequest := "not-a-quantity", Image := "" }

/-- A context that is valid except for an empty Image. -/
def demoNoImgCtx : JobContext := { demoCtx with Image := "" }

/-- A context whose ImagePullPolicy is outside the enumerated k8s set. -/
def demoWeirdCtx : JobContext :=
  { demoCtx with ImagePullPolicy := "definitely-not-a-policy" }

/-- A concrete client for witnesses: create echoes the descriptor back,
list answers with a fixed item list. -/
def demoClient (items : List (VirtualMachineInstance Nat)) : Client Nat String :=
  { create := fun _ vmi => Except.ok vmi
    list := fun _ _ => Except.ok { Items := items } }

/-- A concrete client for witnesses whose two operations both fail. -/
def demoErrClient : Client Nat String :=
  { create := fun _ _ => Except.error (GoError.base "quota exceeded")
    list := fun _ _ => Except.error (GoError.base "connection refused") }

/-- A concrete instance for witnesses. -/
def demoVMI : VirtualMachineInstance Nat := instanceTemplate demoCtx 4 4 5 5

deriving instance DecidableEq for Except

/-- Appending a common prefix to two strings is injective in the suffix. -/
theorem append_left_cancel_str (p a b : String) (h : p ++ a = p ++ b) : a = b := by
  have hd := congrArg String.data h
  rw [String.data_append, String.data_append] at hd
  exact String.ext (List.append_cancel_left hd)

/-- C5: the Selector is a pure deterministic function of the Job Context
ID: it always produces the filter string labelDomain ++ "/id=" ++ ID (the
fixed prefix with the ID embedded verbatim), it depends on nothing but the
ID, and it is injective in the ID — different IDs never yield the same
filter string. -/
theorem Selector_filter_injective :
    (∀ jctx : JobContext,
      (Selector jctx).LabelSelector = labelDomain ++ "/id=" ++ jctx.ID) ∧
    (∀ j1 j2 : JobContext, j1.ID = j2.ID → Selector j1 = Selector j2) ∧
    (∀ j1 j2 : JobContext,
      (Selector j1).LabelSelector = (Selector j2).LabelSelector → j1.ID = j2.ID) := by
  refine ⟨fun jctx => rfl, fun j1 j2 h => by simp [Selector, h], fun j1 j2 h => ?_⟩
  exact append_left_cancel_str (labelDomain ++ "/id=") j1.ID j2.ID h

/-- Witness for C5 at the concrete contexts demoCtx and demoCtxB. -/
theorem Selector_filter_injective_witness :
    (Selector demoCtx).LabelSelector = "gitlab-runner-kubevirt.snai.pe/id=job-1" ∧
    demoCtx.ID = demoCtx.ID :=
  ⟨(Selector_filter_injective.1 demoCtx).trans rfl,
   Selector_filter_injective.2.2 demoCtx demoCtx rfl⟩

/-- C1: whenever the cluster list call answers with a list L, FindJobVM
classifies by match count: an empty L yields the InstanceVanished error,
a singleton list yields exactly its element unchanged, and two or more
items yield the AmbiguousInstance error built from the exact match count
and the context ID — never a successful instance. -/
theorem FindJobVM_classifies {Q E : Type} (client : Client Q E) (jctx : JobContext)
    (L : VirtualMachineInstanceList Q)
    (hL : client.list jctx.Namespace (Selector jctx) = Except.ok L) :
    (L.Items = [] → FindJobVM client jctx = Except.error (GoError.errorf vanishedMsg)) ∧
    (∀ v, L.Items = [v] → FindJobVM client jctx = Except.ok v) ∧
    (2 ≤ L.Items.length →
      FindJobVM client jctx =
        Except.error (GoError.errorf (ambiguousMsg L.Items.length jctx.ID))) := by
  refine ⟨fun h => ?_, fun v h => ?_, fun h => ?_⟩ <;>
    simp only [FindJobVM, hL]
  · rw [dif_pos (by simp [h])]
  · rw [dif_neg (by simp [h]), if_neg (by simp [h])]
    simp [h]
  · rw [dif_neg (by omega), if_pos (by omega)]

/-- Witness for C1: with a concrete client over an empty, a singleton and a
two-element list, the three classifications evaluate as stated. -/
theorem FindJobVM_classifies_witness :
    FindJobVM (demoClient []) demoCtx = Except.error (GoError.errorf vanishedMsg) ∧
    FindJobVM (demoClient [demoVMI]) demoCtx = Except.ok demoVMI ∧
    FindJobVM (demoClient [demoVMI, demoVMI]) demoCtx =
      Except.error (GoError.errorf (ambiguousMsg 2 "job-1")) :=
  ⟨(FindJobVM_classifies (demoClient []) demoCtx ⟨[]⟩ rfl).1 rfl,
   (FindJobVM_classifies (demoClient [demoVMI]) demoCtx ⟨[demoVMI]⟩ rfl).2.1 demoVMI rfl,
   (FindJobVM_classifies (demoClient [demoVMI, demoVMI]) demoCtx ⟨[demoVMI, demoVMI]⟩ rfl).2.2
     (by decide)⟩

/-- C2: when all four quantity strings parse and the Image is non-empty,
CreateJobVM is exactly one create call on the cluster client, submitting
the descriptor built by instanceTemplate; the identity label list of that descriptor
list is the single pair (labelDomain ++ "/id", ID), and its resource
envelope is requests = {cpu: parsed CPURequest, memory: parsed
MemoryRequest} and limits = {cpu: parsed CPULimit, memory: parsed
MemoryLimit}, field for field. -/
theorem CreateJobVM_submits_labeled_envelope {Q E : Type}
    (parseQuantity : String → Except E Q) (client : Client Q E) (jctx : JobContext)
    (cq cl mq ml : Q)
    (h1 : parseQuantity jctx.CPURequest = Except.ok cq)
    (h2 : parseQuantity jctx.CPULimit = Except.ok cl)
    (h3 : parseQuantity jctx.MemoryRequest = Except.ok mq)
    (h4 : parseQuantity jctx.MemoryLimit = Except.ok ml)
    (himg : jctx.Image ≠ "") :
    CreateJobVM parseQuantity client jctx =
      client.create jctx.Namespace (instanceTemplate jctx cq cl mq ml) ∧
    (instanceTemplate jctx cq cl mq ml).metadata.Labels =
      [(labelDomain ++ "/id", jctx.ID)] ∧
    (instanceTemplate jctx cq cl mq ml).Spec.Domain.Resources =
      { Requests := [(ResourceCPU, cq), (ResourceMemory, mq)]
        Limits := [(ResourceCPU, cl), (ResourceMemory, ml)] } := by
  refine ⟨?_, rfl, rfl⟩
  simp only [CreateJobVM, h1, h2, h3, h4]
  rw [if_neg himg]

/-- Witness for C2 at demoCtx with the concrete parser and client. -/
theorem CreateJobVM_submits_labeled_envelope_witness :
    CreateJobVM demoParse (demoClient []) demoCtx =
      (demoClient []).create demoCtx.Namespace (instanceTemplate demoCtx 4 4 5 5) :=
  (CreateJobVM_submits_labeled_envelope demoParse (demoClient []) demoCtx
    4 4 5 5 rfl rfl rfl rfl (by decide)).1

/-- C3: whenever at least one of the four quantity strings fails to parse,
CreateJobVM fails with an error that names a specific field which did fail
to parse (as "parsing <field>") and wraps the underlying parse
error, and the result is the same for every client — no cluster call is
involved. -/
theorem CreateJobVM_parse_failure {Q E : Type}
    (parseQuantity : String → Except E Q) (jctx : JobContext)
    (hfail : (∃ e, parseQuantity jctx.CPURequest = Except.error e) ∨
             (∃ e, parseQuantity jctx.CPULimit = Except.error e) ∨
             (∃ e, parseQuantity jctx.MemoryRequest = Except.error e) ∨
             (∃ e, parseQuantity jctx.MemoryLimit = Except.error e)) :
    ∃ f e,
      ((f = "cpu.request" ∧ parseQuantity jctx.CPURequest = Except.error e) ∨
       (f = "cpu.limit" ∧ parseQuantity jctx.CPULimit = Except.error e) ∨
       (f = "memory.request" ∧ parseQuantity jctx.MemoryRequest = Except.error e) ∨
       (f = "memory.limit" ∧ parseQuantity jctx.MemoryLimit = Except.error e)) ∧
      ∀ client : Client Q E,
        CreateJobVM parseQuantity client jctx =
          Except.error (GoError.wrapf ("parsing " ++ f) (GoError.base e)) := by
  cases h1 : parseQuantity jctx.CPURequest with
  | error e1 =>
    refine ⟨"cpu.request", e1, Or.inl ⟨rfl, rfl⟩, fun client => ?_⟩
    simp only [CreateJobVM, h1]
    rfl
  | ok cq =>
  cases h2 : parseQuantity jctx.CPULimit with
  | error e2 =>
    refine ⟨"cpu.limit", e2, Or.inr (Or.inl ⟨rfl, rfl⟩), fun client => ?_⟩
    simp only [CreateJobVM, h1, h2]
    rfl
  | ok cl =>
  cases h3 : parseQuantity jctx.MemoryRequest with
  | error e3 =>
    refine ⟨"memory.request", e3, Or.inr (Or.inr (Or.inl ⟨rfl, rfl⟩)), fun client => ?_⟩
    simp only [CreateJobVM, h1, h2, h3]
    rfl
  | ok mq =>
  cases h4 : parseQuantity jctx.MemoryLimit with
  | error e4 =>
    refine ⟨"memory.limit", e4, Or.inr (Or.inr (Or.inr ⟨rfl, rfl⟩)), fun client => ?_⟩
    simp only [CreateJobVM, h1, h2, h3, h4]
    rfl
  | ok ml =>
  exfalso
  rcases hfail with ⟨e, he⟩ | ⟨e, he⟩ | ⟨e, he⟩ | ⟨e, he⟩ <;>
    simp_all

/-- Witness for C3: the scenario B context of the spec (CPURequest
"not-a-quantity") fails naming cpu.request and wrapping the parse error. -/
theorem CreateJobVM_parse_failure_witness :
    ∃ f e,
      ((f = "cpu.request" ∧ demoParse demoBadCtx.CPURequest = Except.error e) ∨
       (f = "cpu.limit" ∧ demoParse demoBadCtx.CPULimit = Except.error e) ∨
       (f = "memory.request" ∧ demoParse demoBadCtx.MemoryRequest = Except.error e) ∨
       (f = "memory.limit" ∧ demoParse demoBadCtx.MemoryLimit = Except.error e)) ∧
      ∀ client : Client Nat String,
        CreateJobVM demoParse client demoBadCtx =
          Except.error (GoError.wrapf ("parsing " ++ f) (GoError.base e)) :=
  CreateJobVM_parse_failure demoParse demoBadCtx
    (Or.inl ⟨"unparseable quantity", rfl⟩)

/-- C4 counterexample: the claim quantifies over every Job Context with an
empty Image, but a context whose Image is empty and whose CPURequest is
malformed fails with the quantity parse error, not with the MissingImage
error. -/
theorem CreateJobVM_emptyImage_counterexample :
    demoBadCtx.Image = "" ∧
    CreateJobVM demoParse (demoClient []) demoBadCtx ≠
      Except.error (GoError.errorf missingImageMsg) :=
  ⟨rfl, by decide⟩

/-- C4 (amended): for every Job Context whose Image is empty and whose four
quantity strings all parse, CreateJobVM fails with the MissingImage error,
and the result is the same for every client — no cluster call is involved. -/
theorem CreateJobVM_missingImage {Q E : Type}
    (parseQuantity : String → Except E Q) (jctx : JobContext)
    (cq cl mq ml : Q)
    (h1 : parseQuantity jctx.CPURequest = Except.ok cq)
    (h2 : parseQuantity jctx.CPULimit = Except.ok cl)
    (h3 : parseQuantity jctx.MemoryRequest = Except.ok mq)
    (h4 : parseQuantity jctx.MemoryLimit = Except.ok ml)
    (himg : jctx.Image = "") :
    ∀ client : Client Q E,
      CreateJobVM parseQuantity client jctx =
        Except.error (GoError.errorf missingImageMsg) := by
  intro client
  simp only [CreateJobVM, h1, h2, h3, h4]
  rw [if_pos himg]

/-- Witness for the amended C4 at a context that is valid except for its
empty Image. -/
theorem CreateJobVM_missingImage_witness :
    CreateJobVM demoParse (demoClient []) demoNoImgCtx =
      Except.error (GoError.errorf missingImageMsg) :=
  CreateJobVM_missingImage demoParse demoNoImgCtx 4 4 5 5 rfl rfl rfl rfl rfl
    (demoClient [])

/-- C6: on the submission path the descriptor built by CreateJobVM has no
final name of its own — BaseName only seeds GenerateName — its machine
profile is MachineType, it attaches exactly one volume named "root" backed
by a container-disk source carrying Image and ImagePullPolicy, and its one
label pair (labelDomain ++ "/id", ID) is matched by exactly those Selector
filters built from the same ID: the filter is the exact inverse of the
labeling. -/
theorem instanceTemplate_descriptor_selector_inverse {Q E : Type}
    (parseQuantity : String → Except E Q) (client : Client Q E) (jctx : JobContext)
    (cq cl mq ml : Q)
    (h1 : parseQuantity jctx.CPURequest = Except.ok cq)
    (h2 : parseQuantity jctx.CPULimit = Except.ok cl)
    (h3 : parseQuantity jctx.MemoryRequest = Except.ok mq)
    (h4 : parseQuantity jctx.MemoryLimit = Except.ok ml)
    (himg : jctx.Image ≠ "") :
    CreateJobVM parseQuantity client jctx =
      client.create jctx.Namespace (instanceTemplate jctx cq cl mq ml) ∧
    (instanceTemplate jctx cq cl mq ml).metadata.Name = "" ∧
    (instanceTemplate jctx cq cl mq ml).metadata.GenerateName = jctx.BaseName ∧
    (instanceTemplate jctx cq cl mq ml).Spec.Domain.machine =
      some { machineType := jctx.MachineType } ∧
    (instanceTemplate jctx cq cl mq ml).Spec.Volumes =
      [{ Name := "root"
         volumeSource :=
           { ContainerDisk := some
               { Image := jctx.Image
                 ImagePullPolicy := jctx.ImagePullPolicy } } }] ∧
    (instanceTemplate jctx cq cl mq ml).metadata.Labels =
      [(labelDomain ++ "/id", jctx.ID)] ∧
    (∀ j2 : JobContext,
      labelMatches (Selector j2).LabelSelector
          (instanceTemplate jctx cq cl mq ml).metadata.Labels = true ↔
        jctx.ID = j2.ID) := by
  refine ⟨?_, rfl, rfl, rfl, rfl, rfl, fun j2 => ?_⟩
  · simp only [CreateJobVM, h1, h2, h3, h4]
    rw [if_neg himg]
  · simp only [labelMatches, instanceTemplate, Selector, List.any_cons, List.any_nil,
      Bool.or_false, beq_iff_eq]
    constructor
    · intro h
      exact append_left_cancel_str (labelDomain ++ "/id=") jctx.ID j2.ID h
    · intro h
      rw [h]
      rfl

/-- Witness for C6 at demoCtx: the concrete descriptor facts, and the
selector inverse evaluated at the same and at a different ID. -/
theorem instanceTemplate_descriptor_selector_inverse_witness :
    (instanceTemplate demoCtx (4 : Nat) 4 5 5).metadata.GenerateName = "runner-" ∧
    (labelMatches (Selector demoCtx).LabelSelector
        (instanceTemplate demoCtx (4 : Nat) 4 5 5).metadata.Labels = true ↔
      demoCtx.ID = demoCtx.ID) ∧
    (labelMatches (Selector demoCtxB).LabelSelector
        (instanceTemplate demoCtx (4 : Nat) 4 5 5).metadata.Labels = true ↔
      demoCtx.ID = demoCtxB.ID) :=
  ⟨(instanceTemplate_descriptor_selector_inverse demoParse (demoClient []) demoCtx
      4 4 5 5 rfl rfl rfl rfl (by decide)).2.2.1.trans rfl,
   (instanceTemplate_descriptor_selector_inverse demoParse (demoClient []) demoCtx
      4 4 5 5 rfl rfl rfl rfl (by decide)).2.2.2.2.2.2 demoCtx,
   (instanceTemplate_descriptor_selector_inverse demoParse (demoClient []) demoCtx
      4 4 5 5 rfl rfl rfl rfl (by decide)).2.2.2.2.2.2 demoCtxB⟩

/-- C7 counterexample: the InstanceVanished error does not carry the Job
Context ID — two contexts with different IDs, each finding zero matches,
get the very same error value, which is the fixed message with no ID in
it. -/
theorem FindJobVM_vanished_counterexample :
    demoCtx.ID ≠ demoCtxB.ID ∧
    FindJobVM (demoClient []) demoCtx = FindJobVM (demoClient []) demoCtxB ∧
    FindJobVM (demoClient []) demoCtx =
      Except.error (GoError.errorf
        "Virtual Machine instance disappeared while the job was running!") :=
  ⟨by decide, rfl, rfl⟩

/-- C7 (amended): when the lookup finds zero matches, FindJobVM returns the
InstanceVanished error with the fixed message vanishedMsg, which is
independent of the Job Context ID. -/
theorem FindJobVM_vanished_fixed_message {Q E : Type}
    (client : Client Q E) (jctx : JobContext) (L : VirtualMachineInstanceList Q)
    (hL : client.list jctx.Namespace (Selector jctx) = Except.ok L)
    (hz : L.Items = []) :
    FindJobVM client jctx = Except.error (GoError.errorf vanishedMsg) ∧
    vanishedMsg =
      "Virtual Machine instance disappeared while the job was running!" := by
  refine ⟨?_, rfl⟩
  simp only [FindJobVM, hL]
  rw [dif_pos (by simp [hz])]

/-- Witness for the amended C7 with a concrete empty-list client. -/
theorem FindJobVM_vanished_fixed_message_witness :
    FindJobVM (demoClient []) demoCtx = Except.error (GoError.errorf vanishedMsg) :=
  (FindJobVM_vanished_fixed_message (demoClient []) demoCtx ⟨[]⟩ rfl rfl).1

/-- C8: collaborator failures pass through unchanged: on the submission
path a failing create call is returned as is by CreateJobVM, and a failing
list call is returned as is by FindJobVM, with no classification, retry or
substitute error. -/
theorem collaborator_errors_passthrough {Q E : Type}
    (parseQuantity : String → Except E Q) (client : Client Q E) (jctx : JobContext)
    (cq cl mq ml : Q) (e : GoError E)
    (h1 : parseQuantity jctx.CPURequest = Except.ok cq)
    (h2 : parseQuantity jctx.CPULimit = Except.ok cl)
    (h3 : parseQuantity jctx.MemoryRequest = Except.ok mq)
    (h4 : parseQuantity jctx.MemoryLimit = Except.ok ml)
    (himg : jctx.Image ≠ "") :
    (client.create jctx.Namespace (instanceTemplate jctx cq cl mq ml) =
        Except.error e →
      CreateJobVM parseQuantity client jctx = Except.error e) ∧
    (client.list jctx.Namespace (Selector jctx) = Except.error e →
      FindJobVM client jctx = Except.error e) := by
  constructor
  · intro hc
    simp only [CreateJobVM, h1, h2, h3, h4]
    rw [if_neg himg, hc]
  · intro hl
    simp only [FindJobVM, hl]

/-- Witness for C8 with a concrete client whose two operations fail. -/
theorem collaborator_errors_passthrough_witness :
    CreateJobVM demoParse demoErrClient demoCtx =
      Except.error (GoError.base "quota exceeded") ∧
    FindJobVM demoErrClient demoCtx =
      Except.error (GoError.base "connection refused") :=
  ⟨(collaborator_errors_passthrough demoParse demoErrClient demoCtx
      4 4 5 5 (GoError.base "quota exceeded")
      rfl rfl rfl rfl (by decide)).1 rfl,
   (collaborator_errors_passthrough demoParse demoErrClient demoCtx
      4 4 5 5 (GoError.base "connection refused")
      rfl rfl rfl rfl (by decide)).2 rfl⟩

/-- C9: validation precedence in CreateJobVM is CPURequest, CPULimit,
MemoryRequest, MemoryLimit, each checked before the Image emptiness check:
the first field (in that order) whose quantity fails to parse determines
the returned error, whatever the later fields or the Image hold; in
particular a context with a malformed CPURequest and an empty Image fails
with the cpu.request parse error and never with the MissingImage error. -/
theorem CreateJobVM_validation_order {Q E : Type}
    (parseQuantity : String → Except E Q) (jctx : JobContext) (e : E) :
    (parseQuantity jctx.CPURequest = Except.error e →
      ∀ client : Client Q E,
        CreateJobVM parseQuantity client jctx =
          Except.error (GoError.wrapf "parsing cpu.request" (GoError.base e))) ∧
    (∀ cq, parseQuantity jctx.CPURequest = Except.ok cq →
      parseQuantity jctx.CPULimit = Except.error e →
      ∀ client : Client Q E,
        CreateJobVM parseQuantity client jctx =
          Except.error (GoError.wrapf "parsing cpu.limit" (GoError.base e))) ∧
    (∀ cq cl, parseQuantity jctx.CPURequest = Except.ok cq →
      parseQuantity jctx.CPULimit = Except.ok cl →
      parseQuantity jctx.MemoryRequest = Except.error e →
      ∀ client : Client Q E,
        CreateJobVM parseQuantity client jctx =
          Except.error (GoError.wrapf "parsing memory.request" (GoError.base e))) ∧
    (∀ cq cl mq, parseQuantity jctx.CPURequest = Except.ok cq →
      parseQuantity jctx.CPULimit = Except.ok cl →
      parseQuantity jctx.MemoryRequest = Except.ok mq →
      parseQuantity jctx.MemoryLimit = Except.error e →
      ∀ client : Client Q E,
        CreateJobVM parseQuantity client jctx =
          Except.error (GoError.wrapf "parsing memory.limit" (GoError.base e))) ∧
    (parseQuantity jctx.CPURequest = Except.error e → jctx.Image = "" →
      ∀ client : Client Q E,
        CreateJobVM parseQuantity client jctx ≠
          Except.error (GoError.errorf missingImageMsg)) := by
  refine ⟨fun h1 client => ?_, fun cq h1 h2 client => ?_,
    fun cq cl h1 h2 h3 client => ?_, fun cq cl mq h1 h2 h3 h4 client => ?_,
    fun h1 himg client => ?_⟩
  · simp only [CreateJobVM, h1]
  · simp only [CreateJobVM, h1, h2]
  · simp only [CreateJobVM, h1, h2, h3]
  · simp only [CreateJobVM, h1, h2, h3, h4]
  · intro hcontra
    simp only [CreateJobVM, h1] at hcontra
    exact absurd (Except.error.inj hcontra) (by simp)

/-- Witness for C9 at a context with a malformed CPURequest and an empty
Image: the result is the cpu.request parse error, and not MissingImage. -/
theorem CreateJobVM_validation_order_witness :
    CreateJobVM demoParse (demoClient []) demoBadCtx =
      Except.error (GoError.wrapf "parsing cpu.request"
        (GoError.base "unparseable quantity")) ∧
    CreateJobVM demoParse (demoClient []) demoBadCtx ≠
      Except.error (GoError.errorf missingImageMsg) :=
  ⟨(CreateJobVM_validation_order demoParse demoBadCtx "unparseable quantity").1
      rfl (demoClient []),
   (CreateJobVM_validation_order demoParse demoBadCtx "unparseable quantity").2.2.2.2
      rfl rfl (demoClient [])⟩

/-- C10: CreateJobVM does not validate ImagePullPolicy: for any value of
that field — the statement puts no constraint on it, so the empty string
and strings outside {Always, IfNotPresent, Never} are included — the
submitted descriptor carries it verbatim in the container-disk source. -/
theorem CreateJobVM_pullPolicy_passthrough {Q E : Type}
    (parseQuantity : String → Except E Q) (client : Client Q E) (jctx : JobContext)
    (cq cl mq ml : Q)
    (h1 : parseQuantity jctx.CPURequest = Except.ok cq)
    (h2 : parseQuantity jctx.CPULimit = Except.ok cl)
    (h3 : parseQuantity jctx.MemoryRequest = Except.ok mq)
    (h4 : parseQuantity jctx.MemoryLimit = Except.ok ml)
    (himg : jctx.Image ≠ "") :
    CreateJobVM parseQuantity client jctx =
      client.create jctx.Namespace (instanceTemplate jctx cq cl mq ml) ∧
    (instanceTemplate jctx cq cl mq ml).Spec.Volumes.map
        (fun v => v.volumeSource.ContainerDisk.map
          (fun cd => cd.ImagePullPolicy)) =
      [some jctx.ImagePullPolicy] := by
  refine ⟨?_, rfl⟩
  simp only [CreateJobVM, h1, h2, h3, h4]
  rw [if_neg himg]

/-- Witness for C10 at a context whose ImagePullPolicy is outside the
enumerated set. -/
theorem CreateJobVM_pullPolicy_passthrough_witness :
    (instanceTemplate demoWeirdCtx (4 : Nat) 4 5 5).Spec.Volumes.map
        (fun v => v.volumeSource.ContainerDisk.map
          (fun cd => cd.ImagePullPolicy)) =
      [some "definitely-not-a-policy"] :=
  ((CreateJobVM_pullPolicy_passthrough demoParse (demoClient []) demoWeirdCtx
      4 4 5 5 rfl rfl rfl rfl (by decide)).2).trans rfl

end KubevirtRunner
